import Mathlib

/-!
Shallow embedding of the chat server repository (Go): the bounded
circular history buffer, and the two command-processor variants
found in the sources — the `chat` package (v1: `Client`, `Room`,
`Server` with plain maps and sender-excluding broadcast) and the
`chatv2` single-file variant (v2: circular history buffer, usage
checks, `sync.Map` membership).  Machine integers are modelled as
`Nat` (all quantities involved are non-negative array indices and
counts); Go run-time panics (index out of range, integer divide by
zero, nil pointer dereference) are modelled explicitly where a
claim depends on them.
-/

/-- Go run-time panic kinds that the embedded code can hit. -/
inductive GoPanic where
  | indexOutOfRange
  | divideByZero
  | nilPointerDereference
deriving DecidableEq, Repr

/-! ## CircularBuffer (identical in `chatv2/main.go` and the `chat` package) -/

/-- Embedding of the Go struct `CircularBuffer`: a backing slice of
strings plus `size`, `start`, `end` (here `endIdx`, since `end` is a
Lean keyword) and `count`.  The mutex is dropped: the embedding is
sequential, matching the spec's note that only the processor touches
the buffer. -/
structure CircularBuffer where
  messages : List String
  size : Nat
  start : Nat
  endIdx : Nat
  count : Nat
deriving DecidableEq, Repr

/-- Embedding of `NewCircularBuffer`: `make([]string, size)` yields a
slice of `size` empty strings. -/
def NewCircularBuffer (size : Nat) : CircularBuffer :=
  { messages := List.replicate size "", size := size, start := 0, endIdx := 0, count := 0 }

/-- Embedding of `CircularBuffer.Add` assuming no panic occurs:
write at `end`, advance `end` modulo `size`, and either advance
`start` (full) or increment `count`. -/
def CircularBuffer.add (cb : CircularBuffer) (message : String) : CircularBuffer :=
  let msgs := cb.messages.set cb.endIdx message
  let e := (cb.endIdx + 1) % cb.size
  if cb.count = cb.size then
    { cb with messages := msgs, endIdx := e, start := (cb.start + 1) % cb.size }
  else
    { cb with messages := msgs, endIdx := e, count := cb.count + 1 }

/-- Embedding of `CircularBuffer.Add` with Go's run-time checks in
Go's evaluation order: the slice write `cb.messages[cb.end] = message`
is executed first (panicking when `end` is out of range), then
`(cb.end + 1) % cb.size` (panicking when `size` is zero). -/
def CircularBuffer.addChecked (cb : CircularBuffer) (message : String) :
    Except GoPanic CircularBuffer :=
  if cb.endIdx < cb.messages.length then
    if cb.size = 0 then .error .divideByZero
    else .ok (cb.add message)
  else .error .indexOutOfRange

/-- Embedding of `CircularBuffer.GetAll` assuming no panic: read
`count` entries starting at `start`, wrapping modulo `size`. -/
def CircularBuffer.getAll (cb : CircularBuffer) : List String :=
  (List.range cb.count).map (fun i => cb.messages.getD ((cb.start + i) % cb.size) "")

/-- One iteration batch of the `GetAll` loop with Go's run-time
checks: reads `n` entries beginning at loop index `i`; each iteration
first evaluates `(cb.start+i) % cb.size` (divide-by-zero check) and
then indexes the slice (bounds check). -/
def CircularBuffer.readFrom (cb : CircularBuffer) : Nat → Nat → Except GoPanic (List String)
  | _, 0 => .ok []
  | i, n + 1 =>
    if cb.size = 0 then .error .divideByZero
    else
      let idx := (cb.start + i) % cb.size
      if idx < cb.messages.length then
        match cb.readFrom (i + 1) n with
        | .ok rest => .ok (cb.messages.getD idx "" :: rest)
        | .error e => .error e
      else .error .indexOutOfRange

/-- Embedding of `CircularBuffer.GetAll` with Go's run-time checks. -/
def CircularBuffer.getAllChecked (cb : CircularBuffer) : Except GoPanic (List String) :=
  cb.readFrom 0 cb.count

/-- The structural invariant of a circular buffer of positive
capacity: the counters stay inside the backing slice.  (`0 ≤ _` is
automatic since all fields are `Nat`.) -/
def CircularBuffer.inv (cb : CircularBuffer) : Prop :=
  0 < cb.size ∧ cb.count ≤ cb.size ∧ cb.start < cb.size ∧ cb.endIdx < cb.size ∧
    cb.messages.length = cb.size

instance (cb : CircularBuffer) : Decidable cb.inv := by
  unfold CircularBuffer.inv; infer_instance

/-- Representation relation: the buffer `cb` is the result of adding
the messages of `l`, in order, to a fresh buffer of capacity `N`. -/
def repOk (N : Nat) (l : List String) (cb : CircularBuffer) : Prop :=
  cb.size = N ∧ cb.messages.length = N ∧ cb.count = min l.length N ∧
  cb.endIdx = l.length % N ∧ cb.start = (l.length - cb.count) % N ∧
  ∀ i, i < cb.count →
    cb.messages.getD ((cb.start + i) % N) "" = l.getD (l.length - cb.count + i) ""

/-- Result of folding a sequence of `Add` calls over a buffer, in order. -/
def CircularBuffer.addAll (cb : CircularBuffer) (l : List String) : CircularBuffer :=
  l.foldl CircularBuffer.add cb

theorem getD_set_self (l : List String) (i : Nat) (a : String) (h : i < l.length) :
    (l.set i a).getD i "" = a := by
  rw [List.getD_eq_getElem?_getD, List.getElem?_set_self h]; rfl

theorem getD_set_ne (l : List String) {i j : Nat} (h : i ≠ j) (a : String) :
    (l.set i a).getD j "" = l.getD j "" := by
  rw [List.getD_eq_getElem?_getD, List.getElem?_set_ne h, ← List.getD_eq_getElem?_getD]

theorem getD_append_left {l l2 : List String} {i : Nat} (h : i < l.length) :
    (l ++ l2).getD i "" = l.getD i "" := by
  rw [List.getD_eq_getElem?_getD, List.getElem?_append_left h, ← List.getD_eq_getElem?_getD]

theorem getD_append_length {l : List String} (m : String) :
    (l ++ [m]).getD l.length "" = m := by
  rw [List.getD_eq_getElem?_getD, List.getElem?_append_right (le_refl _)]
  simp

theorem mod_add_mod_left (L k N : Nat) : (L % N + k) % N = (L + k) % N :=
  (Nat.mod_modEq L N).add_right k

theorem mod_shift_ne {N L i : Nat} (hi : 0 < i) (hiN : i < N) :
    (L + i) % N ≠ L % N := by
  intro h
  have h2 : L ≡ L + i [MOD N] := h.symm
  have h3 : N ∣ L + i - L := (Nat.modEq_iff_dvd' (Nat.le_add_right L i)).mp h2
  rw [Nat.add_sub_cancel_left] at h3
  exact absurd (Nat.le_of_dvd hi h3) (by omega)

theorem repOk_nil (N : Nat) : repOk N [] (NewCircularBuffer N) := by
  refine ⟨rfl, List.length_replicate N "", by simp [NewCircularBuffer], by simp [NewCircularBuffer], by simp [NewCircularBuffer], ?_⟩
  intro i hi
  simp [NewCircularBuffer] at hi

theorem repOk_add {N : Nat} (hN : 0 < N) {l : List String} {cb : CircularBuffer} (m : String)
    (h : repOk N l cb) : repOk N (l ++ [m]) (cb.add m) := by
  obtain ⟨hsz, hlen, hcnt, hend, hstart, hcontent⟩ := h
  unfold CircularBuffer.add
  by_cases hfull : cb.count = cb.size
  · have hNL : N ≤ l.length := by omega
    have hcN : cb.count = N := by omega
    rw [if_pos hfull]
    refine ⟨hsz, by simpa using hlen, ?_, ?_, ?_, ?_⟩
    · simp only [List.length_append, List.length_singleton]
      omega
    · simp only [List.length_append, List.length_singleton]
      rw [hsz, hend, mod_add_mod_left]
    · simp only [List.length_append, List.length_singleton]
      rw [hsz, hstart, mod_add_mod_left]
      congr 1
      omega
    · intro i hi
      simp only [List.length_append, List.length_singleton] at hi ⊢
      have hiN : i < N := by omega
      have hidx : ((cb.start + 1) % cb.size + i) % N = (l.length + 1 + i) % N := by
        rw [hsz, mod_add_mod_left, hstart, hcN]
        rw [show (l.length - N) % N + 1 + i = (l.length - N) % N + (1 + i) from by omega,
            mod_add_mod_left]
        rw [show l.length - N + (1 + i) = l.length - N + 1 + i from by omega]
        rw [show (l.length + 1 + i) % N = (l.length - N + 1 + i + N) % N from by
              congr 1; omega,
            Nat.add_mod_right]
      rw [hidx]
      by_cases hlast : i = N - 1
      · have h1 : (l.length + 1 + i) % N = l.length % N := by
          rw [show l.length + 1 + i = l.length + N from by omega, Nat.add_mod_right]
        rw [h1, ← hend, getD_set_self _ _ _ (by rw [hend, hlen]; exact Nat.mod_lt _ hN)]
        rw [show l.length + 1 - cb.count + i = l.length from by omega, getD_append_length]
      · have hne : cb.endIdx ≠ (l.length + 1 + i) % N := by
          rw [hend, show l.length + 1 + i = l.length + (1 + i) from by omega]
          exact (mod_shift_ne (by omega) (by omega)).symm
        rw [getD_set_ne _ hne]
        have h2 := hcontent (i + 1) (by omega)
        have h3 : (cb.start + (i + 1)) % N = (l.length + 1 + i) % N := by
          rw [hstart, hcN, mod_add_mod_left]
          rw [show (l.length + 1 + i) % N = (l.length - N + (i + 1) + N) % N from by
                congr 1; omega,
              Nat.add_mod_right]
        rw [h3] at h2
        rw [h2]
        rw [show l.length + 1 - cb.count + i = l.length - cb.count + (i + 1) from by omega]
        exact (getD_append_left (by omega)).symm
  · have hLN : l.length < N := by omega
    have hcL : cb.count = l.length := by omega
    rw [if_neg hfull]
    have hstart0 : cb.start = 0 := by
      rw [hstart, hcL, Nat.sub_self, Nat.zero_mod]
    have hend' : cb.endIdx = l.length := by
      rw [hend, Nat.mod_eq_of_lt hLN]
    refine ⟨hsz, by simpa using hlen, ?_, ?_, ?_, ?_⟩
    · simp only [List.length_append, List.length_singleton]
      omega
    · simp only [List.length_append, List.length_singleton]
      rw [hsz, hend, mod_add_mod_left]
    · simp only [List.length_append, List.length_singleton]
      rw [hstart0, show l.length + 1 - (cb.count + 1) = 0 from by omega, Nat.zero_mod]
    · intro i hi
      simp only [List.length_append, List.length_singleton] at hi ⊢
      have hiL : i ≤ l.length := by omega
      have hidx : (cb.start + i) % N = i := by
        rw [hstart0, Nat.zero_add, Nat.mod_eq_of_lt (by omega)]
      rw [hidx, hend']
      rw [show l.length + 1 - (cb.count + 1) + i = i from by omega]
      by_cases hlast : i = l.length
      · rw [hlast, getD_set_self _ _ _ (by omega), getD_append_length]
      · rw [getD_set_ne _ (by omega)]
        have h2 := hcontent i (by omega)
        rw [hidx, hcL, Nat.sub_self, Nat.zero_add] at h2
        rw [h2]
        exact (getD_append_left (by omega)).symm

theorem repOk_addAll {N : Nat} (hN : 0 < N) :
    ∀ (l2 l : List String) (cb : CircularBuffer),
      repOk N l cb → repOk N (l ++ l2) (cb.addAll l2)
  | [], l, cb, h => by simpa [CircularBuffer.addAll] using h
  | m :: t, l, cb, h => by
    have h3 := repOk_addAll hN t (l ++ [m]) (cb.add m) (repOk_add hN m h)
    simpa [CircularBuffer.addAll] using h3

theorem getAll_repOk {N : Nat} {l : List String} {cb : CircularBuffer}
    (h : repOk N l cb) : cb.getAll = l.drop (l.length - N) := by
  obtain ⟨hsz, hlen, hcnt, hend, hstart, hcontent⟩ := h
  have hlenAll : cb.getAll.length = cb.count := by
    simp [CircularBuffer.getAll]
  apply List.ext_getElem
  · rw [hlenAll, List.length_drop]
    omega
  · intro n h1 h2
    have hn : n < cb.count := by rw [hlenAll] at h1; exact h1
    have hcL : cb.count ≤ l.length := by omega
    have step1 : cb.getAll[n] = cb.messages.getD ((cb.start + n) % cb.size) "" := by
      simp only [CircularBuffer.getAll]
      rw [List.getElem_map, List.getElem_range]
    have step2 := hcontent n hn
    rw [hsz] at step1
    have hidx : l.length - cb.count + n = l.length - N + n := by omega
    have hbound : l.length - N + n < l.length := by omega
    rw [step1, step2, hidx, List.getD_eq_getElem l "" hbound, List.getElem_drop]

theorem readFrom_ok (cb : CircularBuffer) (hsz : 0 < cb.size)
    (hlen : cb.messages.length = cb.size) :
    ∀ (n i : Nat), cb.readFrom i n =
      .ok ((List.range n).map (fun k => cb.messages.getD ((cb.start + (i + k)) % cb.size) ""))
  | 0, i => by simp [CircularBuffer.readFrom]
  | n + 1, i => by
    have ih := readFrom_ok cb hsz hlen n (i + 1)
    unfold CircularBuffer.readFrom
    rw [if_neg (by omega)]
    have hidx : (cb.start + i) % cb.size < cb.messages.length := by
      rw [hlen]; exact Nat.mod_lt _ hsz
    simp only
    rw [if_pos hidx, ih]
    rw [List.range_succ_eq_map]
    simp only [List.map_cons, List.map_map, Nat.add_zero]
    have ht : List.map (fun k => cb.messages.getD ((cb.start + (i + 1 + k)) % cb.size) "")
          (List.range n)
        = List.map ((fun k => cb.messages.getD ((cb.start + (i + k)) % cb.size) "") ∘ Nat.succ)
          (List.range n) := by
      apply List.map_congr_left
      intro k _
      simp only [Function.comp, Nat.succ_eq_add_one]
      have h5 : cb.start + (i + 1 + k) = cb.start + (i + (k + 1)) := by omega
      rw [h5]
    rw [ht]

theorem getAllChecked_ok (cb : CircularBuffer) (hsz : 0 < cb.size)
    (hlen : cb.messages.length = cb.size) : cb.getAllChecked = .ok cb.getAll := by
  rw [CircularBuffer.getAllChecked, readFrom_ok cb hsz hlen cb.count 0]
  simp [CircularBuffer.getAll]

theorem inv_new {N : Nat} (hN : 0 < N) : (NewCircularBuffer N).inv := by
  refine ⟨hN, ?_, hN, hN, ?_⟩ <;> simp [NewCircularBuffer]

theorem inv_add {cb : CircularBuffer} (m : String) (h : cb.inv) : (cb.add m).inv := by
  obtain ⟨hsz, hcnt, hstart, hend, hlen⟩ := h
  unfold CircularBuffer.add
  by_cases hfull : cb.count = cb.size
  · rw [if_pos hfull]
    exact ⟨hsz, hcnt, Nat.mod_lt _ hsz, Nat.mod_lt _ hsz, by simpa using hlen⟩
  · rw [if_neg hfull]
    refine ⟨hsz, ?_, hstart, Nat.mod_lt _ hsz, by simpa using hlen⟩
    show cb.count + 1 ≤ cb.size
    omega

theorem addChecked_ok {cb : CircularBuffer} (m : String) (h : cb.inv) :
    cb.addChecked m = .ok (cb.add m) := by
  obtain ⟨hsz, hcnt, hstart, hend, hlen⟩ := h
  rw [CircularBuffer.addChecked, if_pos (by omega), if_neg (by omega)]

/-- C3: for every bounded history buffer of positive capacity N and every
finite sequence of Add calls, GetAll returns exactly the min(N, totalAdds)
most recently added messages, oldest first, in chronological order;
concretely, capacity 5 with adds "m1".."m7" yields ["m3","m4","m5","m6","m7"]. -/
theorem C3_getAll_most_recent :
    (∀ (N : Nat) (l : List String), 0 < N →
      ((NewCircularBuffer N).addAll l).getAll = l.drop (l.length - N) ∧
      ((NewCircularBuffer N).addAll l).getAll.length = min l.length N) ∧
    ((NewCircularBuffer 5).addAll ["m1", "m2", "m3", "m4", "m5", "m6", "m7"]).getAll
      = ["m3", "m4", "m5", "m6", "m7"] := by
  constructor
  · intro N l hN
    have h := repOk_addAll hN l [] (NewCircularBuffer N) (repOk_nil N)
    rw [List.nil_append] at h
    refine ⟨getAll_repOk h, ?_⟩
    rw [getAll_repOk h, List.length_drop]
    omega
  · rfl

/-- Witness for C3 at capacity 2 with three adds. -/
theorem C3_getAll_most_recent_witness :
    0 < 2 ∧ (((NewCircularBuffer 2).addAll ["a", "b", "c"]).getAll
        = ["a", "b", "c"].drop ((["a", "b", "c"] : List String).length - 2) ∧
      ((NewCircularBuffer 2).addAll ["a", "b", "c"]).getAll.length
        = min (["a", "b", "c"] : List String).length 2) :=
  ⟨by decide, C3_getAll_most_recent.1 2 ["a", "b", "c"] (by decide)⟩

/-- C10 counterexample: with capacity 0 the Add panic is an index-out-of-range
on the backing slice (the write `cb.messages[cb.end]` is evaluated before the
modulo expression), not a modulo-by-zero as the claim states. -/
theorem C10_capacity_zero_counterexample :
    (NewCircularBuffer 0).addChecked "x" = .error .indexOutOfRange ∧
    GoPanic.indexOutOfRange ≠ GoPanic.divideByZero :=
  ⟨rfl, by decide⟩

/-- C10 (amended): for every buffer of positive capacity the invariant
count ≤ size ∧ start < size ∧ end < size (with the backing slice of length
size) holds initially and is preserved by Add; under the invariant neither
Add nor GetAll hits a run-time check, so no out-of-bounds index occurs; a
buffer constructed with capacity 0 makes Add panic, with an
index-out-of-range on the backing slice rather than a modulo-by-zero. -/
theorem C10_buffer_invariant :
    (∀ N : Nat, 0 < N → (NewCircularBuffer N).inv) ∧
    (∀ (cb : CircularBuffer) (m : String), cb.inv → (cb.add m).inv) ∧
    (∀ (cb : CircularBuffer) (m : String), cb.inv → cb.addChecked m = .ok (cb.add m)) ∧
    (∀ cb : CircularBuffer, cb.inv → cb.getAllChecked = .ok cb.getAll) ∧
    (NewCircularBuffer 0).addChecked "x" = .error .indexOutOfRange :=
  ⟨fun _ hN => inv_new hN,
   fun _ m h => inv_add m h,
   fun _ m h => addChecked_ok m h,
   fun cb h => getAllChecked_ok cb h.1 h.2.2.2.2,
   rfl⟩

/-- Witness for C10 at capacity 3. -/
theorem C10_buffer_invariant_witness :
    (NewCircularBuffer 3).inv ∧ ((NewCircularBuffer 3).add "a").inv ∧
    (NewCircularBuffer 3).addChecked "a" = .ok ((NewCircularBuffer 3).add "a") ∧
    (NewCircularBuffer 3).getAllChecked = .ok (NewCircularBuffer 3).getAll :=
  ⟨C10_buffer_invariant.1 3 (by decide),
   C10_buffer_invariant.2.1 (NewCircularBuffer 3) "a" (by decide),
   C10_buffer_invariant.2.2.1 (NewCircularBuffer 3) "a" (by decide),
   C10_buffer_invariant.2.2.2.1 (NewCircularBuffer 3) (by decide)⟩

/-! ## Delivery events

Clients are identified by a numeric stand-in for their `net.Conn` /
remote address; the processor's externally visible behaviour per
command is the ordered list of transport events it performs. -/

/-- A transport event: a line written to a client's connection (the
trailing newline is transport framing, omitted uniformly), or the
server closing a connection. -/
inductive Ev where
  | send (dst : Nat) (line : String)
  | close (c : Nat)
deriving DecidableEq, Repr

/-- Command kinds, shared by both dispatch loops (`/name`, `/rooms`,
`/join`, `/msg`, `/quit`). -/
inductive CommandID where
  | cmdNickname
  | cmdRooms
  | cmdJoin
  | cmdMsg
  | cmdQuit
deriving DecidableEq, Repr

/-- Association-list lookup modelling map access keyed by room name. -/
def lookupA {α : Type} : List (String × α) → String → Option α
  | [], _ => none
  | (k, v) :: t, n => if k = n then some v else lookupA t n

/-- Association-list store modelling map insert/overwrite keyed by
room name. -/
def storeA {α : Type} : List (String × α) → String → α → List (String × α)
  | [], n, r => [(n, r)]
  | (k, v) :: t, n, r => if k = n then (n, r) :: t else (k, v) :: storeA t n r

/-! ## chatv2 variant (`src/chatv2/main.go`) -/

/-- The `ChatRoomBufferSize` constant of chatv2. -/
def ChatRoomBufferSize : Nat := 5

/-- chatv2 `Client`: connection identity, nickname, current room.
The Go `Room` field is a pointer into the registry; since rooms are
created only by `Join` and never removed, the room's name faithfully
stands for the pointer.  The inert `RateLimiter`/`InitialTimer`
fields are dropped (never consulted). -/
structure ClientV2 where
  conn : Nat
  nickName : String
  room : Option String
deriving DecidableEq, Repr

/-- chatv2 `Room`: name, membership (`sync.Map` keyed by `net.Conn`,
modelled as a duplicate-free insertion-ordered list of connection
ids), and the history buffer. -/
structure RoomV2 where
  name : String
  clients : List Nat
  messages : CircularBuffer
deriving DecidableEq, Repr

/-- chatv2 `Server`: the room registry (`sync.Map` keyed by name). -/
structure ServerV2 where
  rooms : List (String × RoomV2)
deriving DecidableEq, Repr

/-- chatv2 `Client.Error`: writes `"Error: <msg>"` to the issuer. -/
def errorLine (s : String) : String := "Error: " ++ s

/-- chatv2 `Server.broadcastMessage`: ranges over all clients of the
room and writes the message to each — there is no sender exclusion in
this variant. -/
def broadcastMessage (room : RoomV2) (msg : String) : List Ev :=
  room.clients.map (fun conn => Ev.send conn msg)

/-- chatv2 `Server.NickName`. -/
def ServerV2.nickName (s : ServerV2) (c : ClientV2) (args : List String) :
    ServerV2 × ClientV2 × List Ev :=
  if args.length < 2 then
    (s, c, [Ev.send c.conn (errorLine "nickname is required. usage: /name NEW_NICKNAME")])
  else
    let c2 := { c with nickName := args.getD 1 "" }
    (s, c2, [Ev.send c.conn ("Nickname changed to: " ++ c2.nickName)])

/-- chatv2 `Server.ListRooms`. -/
def ServerV2.listRooms (s : ServerV2) (c : ClientV2) : List Ev :=
  let names := s.rooms.map (fun p => p.1)
  let roomList := if names.length = 0 then "no rooms available" else String.intercalate ", " names
  [Ev.send c.conn ("Rooms: " ++ roomList)]

/-- chatv2 `Server.Message`: after the length check, look the room up
by name, format `"{nick}: {text}"`, append to the history and
broadcast (the in-place mutation of the room pointed at from the
registry is modelled by storing the updated room back). -/
def ServerV2.message (s : ServerV2) (c : ClientV2) (args : List String) :
    ServerV2 × List Ev :=
  if args.length < 2 then
    (s, [Ev.send c.conn (errorLine "message is required. usage: /msg ROOM MESSAGE")])
  else
    let roomName := args.getD 1 ""
    match lookupA s.rooms roomName with
    | none => (s, [Ev.send c.conn (errorLine "room not found")])
    | some room =>
      let formattedMsg := c.nickName ++ ": " ++ String.intercalate " " (args.drop 2)
      let room2 := { room with messages := room.messages.add formattedMsg }
      ({ rooms := storeA s.rooms roomName room2 }, broadcastMessage room2 formattedMsg)

/-- chatv2 `Server.Join`: look up or lazily create the room, store the
client in the room's membership, set the client's room reference,
replay the room's history to the joiner, then broadcast the joined
notice.  Note: this variant never removes the session from a previous
room. -/
def ServerV2.join (s : ServerV2) (c : ClientV2) (args : List String) :
    ServerV2 × ClientV2 × List Ev :=
  if args.length < 2 then
    (s, c, [Ev.send c.conn (errorLine "room name is required. usage: /join ROOM")])
  else
    let roomName := args.getD 1 ""
    let room :=
      match lookupA s.rooms roomName with
      | some r => r
      | none => { name := roomName, clients := [],
                  messages := NewCircularBuffer ChatRoomBufferSize }
    let room2 := { room with
      clients := if c.conn ∈ room.clients then room.clients else room.clients ++ [c.conn] }
    let s2 : ServerV2 := { rooms := storeA s.rooms roomName room2 }
    let c2 := { c with room := some roomName }
    (s2, c2,
      room2.messages.getAll.map (fun m => Ev.send c.conn m)
        ++ broadcastMessage room2 (c.nickName ++ " joined the room"))

/-- chatv2 `Server.Quit`: when the session is in a room, delete it
from the membership and broadcast the left notice (to the remaining
members — this variant's broadcast has no sender exclusion, but the
leaver was already deleted), then close the connection.  No farewell
message is written in this variant.  The inner `none` branch is
unreachable for states produced by `Join` (the room field always
names a registry entry). -/
def ServerV2.quit (s : ServerV2) (c : ClientV2) : ServerV2 × ClientV2 × List Ev :=
  match c.room with
  | some rn =>
    match lookupA s.rooms rn with
    | some room =>
      let room2 := { room with clients := room.clients.filter (fun x => x ≠ c.conn) }
      ({ rooms := storeA s.rooms rn room2 }, { c with room := none },
        broadcastMessage room2 (c.nickName ++ " left the room") ++ [Ev.close c.conn])
    | none => (s, { c with room := none }, [Ev.close c.conn])
  | none => (s, c, [Ev.close c.conn])

/-- History currently held for a named room (empty for an absent room,
which also matches the freshly created room's empty buffer). -/
def ServerV2.roomHistory (s : ServerV2) (rn : String) : List String :=
  match lookupA s.rooms rn with
  | some r => r.messages.getAll
  | none => []

/-- chatv2 `Server.Run` dispatch of one dequeued command. -/
def ServerV2.runCommand (s : ServerV2) (c : ClientV2) (cmd : CommandID) (args : List String) :
    ServerV2 × ClientV2 × List Ev :=
  match cmd with
  | .cmdNickname => s.nickName c args
  | .cmdRooms => (s, c, s.listRooms c)
  | .cmdJoin => s.join c args
  | .cmdMsg =>
    let (s2, evs) := s.message c args
    (s2, c, evs)
  | .cmdQuit => s.quit c

/-! ## chat package variant (v1, `src/unnamed/part_001` / `part_002`) -/

/-- v1 `Room`: name and member map keyed by remote address (modelled
as a duplicate-free insertion-ordered list of connection ids).  There
is no history buffer in this variant. -/
structure RoomV1 where
  name : String
  members : List Nat
deriving DecidableEq, Repr

/-- v1 `Client`. -/
structure ClientV1 where
  conn : Nat
  nickName : String
  room : Option String
deriving DecidableEq, Repr

/-- v1 `Server`: room registry as a plain map. -/
structure ServerV1 where
  rooms : List (String × RoomV1)
deriving DecidableEq, Repr

/-- v1 `Client.Message`: informational replies carry the "> " marker. -/
def clientMessageLine (msg : String) : String := "> " ++ msg

/-- v1 `Client.Error`. -/
def clientErrorLine (msg : String) : String := "Error: " ++ msg

/-- v1 `Room.Broadcast`: deliver to every member whose address differs
from the sender's address — the sender is excluded in this variant. -/
def RoomV1.broadcast (r : RoomV1) (sender : Nat) (msg : String) : List Ev :=
  (r.members.filter (fun a => a ≠ sender)).map (fun a => Ev.send a (clientMessageLine msg))

/-- v1 `Server.NickName`: no length check — `args[1]` on a bare
`/name` panics with index out of range (crashing the Run loop). -/
def ServerV1.nickName (c : ClientV1) (args : List String) :
    ClientV1 × List Ev × Option GoPanic :=
  if 1 < args.length then
    let c2 := { c with nickName := args.getD 1 "" }
    (c2, [Ev.send c.conn
            (clientMessageLine ("all right, Server will know you by " ++ c2.nickName))], none)
  else (c, [], some .indexOutOfRange)

/-- v1 `Server.quitCurrentRoom`: when the client is in a room, delete
it from that room's member map, then broadcast the left notice.  The
client's room field is read through the registry (the pointer always
aliases a registry entry; the inner `none` branch is unreachable for
states produced by `Join`). -/
def ServerV1.quitCurrentRoom (s : ServerV1) (c : ClientV1) : ServerV1 × List Ev :=
  match c.room with
  | none => (s, [])
  | some rn =>
    match lookupA s.rooms rn with
    | some r =>
      let r2 := { r with members := r.members.filter (fun a => a ≠ c.conn) }
      ({ rooms := storeA s.rooms rn r2 },
        r2.broadcast c.conn (c.nickName ++ " has left the chat"))
    | none => (s, [])

/-- v1 `Server.Join`: `args[1]` panics on a bare `/join`; otherwise
look up or create the room, add the client to the member map FIRST,
then call `quitCurrentRoom` (leave-old runs after join-new in this
variant), set the client's room, broadcast the joined notice through
the same room pointer, and send the welcome line to the joiner. -/
def ServerV1.join (s : ServerV1) (c : ClientV1) (args : List String) :
    ServerV1 × ClientV1 × List Ev × Option GoPanic :=
  if args.length < 2 then (s, c, [], some .indexOutOfRange)
  else
    let roomName := args.getD 1 ""
    let r :=
      match lookupA s.rooms roomName with
      | some r => r
      | none => { name := roomName, members := [] }
    let r2 := { r with
      members := if c.conn ∈ r.members then r.members else r.members ++ [c.conn] }
    let s2 : ServerV1 := { rooms := storeA s.rooms roomName r2 }
    let (s3, leftEvs) := ServerV1.quitCurrentRoom s2 c
    let c2 := { c with room := some roomName }
    let rNow :=
      match lookupA s3.rooms roomName with
      | some r => r
      | none => r2
    (s3, c2,
      leftEvs ++ rNow.broadcast c.conn (c.nickName ++ " has joined the room")
        ++ [Ev.send c.conn (clientMessageLine ("Welcome to " ++ roomName))], none)

/-- v1 `Server.ListRooms`. -/
def ServerV1.listRooms (s : ServerV1) (c : ClientV1) : List Ev :=
  [Ev.send c.conn
    (clientMessageLine ("available rooms are " ++ String.intercalate ", " (s.rooms.map (fun p => p.1))))]

/-- v1 `Server.Message`: when the client has no room, the error reply
is written but control falls through (no `return`) into
`c.Room.Broadcast` on a nil pointer, panicking the Run loop. -/
def ServerV1.message (s : ServerV1) (c : ClientV1) (args : List String) :
    List Ev × Option GoPanic :=
  match c.room with
  | none =>
    ([Ev.send c.conn (clientErrorLine "you must join the room first")],
      some .nilPointerDereference)
  | some rn =>
    match lookupA s.rooms rn with
    | some r =>
      (r.broadcast c.conn (c.nickName ++ " : " ++ String.intercalate " " (args.drop 1)), none)
    | none => ([], none)

/-- v1 `Server.Quit`: leave the current room (if any), send the
farewell and close the connection.  Neither `quitCurrentRoom` nor
`Quit` clears the client's room field. -/
def ServerV1.quit (s : ServerV1) (c : ClientV1) : ServerV1 × ClientV1 × List Ev :=
  let (s2, leftEvs) := ServerV1.quitCurrentRoom s c
  (s2, c,
    leftEvs ++ [Ev.send c.conn (clientMessageLine "sad to see you go :("), Ev.close c.conn])

/-- v1 `Server.Run` dispatch of one dequeued command; the last
component records a Go panic escaping the handler (which terminates
the Run goroutine). -/
def ServerV1.runCommand (s : ServerV1) (c : ClientV1) (cmd : CommandID) (args : List String) :
    ServerV1 × ClientV1 × List Ev × Option GoPanic :=
  match cmd with
  | .cmdNickname =>
    let (c2, evs, p) := ServerV1.nickName c args
    (s, c2, evs, p)
  | .cmdRooms => (s, c, ServerV1.listRooms s c, none)
  | .cmdJoin => ServerV1.join s c args
  | .cmdMsg =>
    let (evs, p) := ServerV1.message s c args
    (s, c, evs, p)
  | .cmdQuit =>
    let (s2, c2, evs) := ServerV1.quit s c
    (s2, c2, evs, none)

/-! ## Claim theorems about the processors -/

/-- Two-member room "A" with an empty history: the scenario for C1. -/
def roomA0 : RoomV2 :=
  { name := "A", clients := [1, 2], messages := NewCircularBuffer ChatRoomBufferSize }

/-- Registry holding only room "A": the scenario for C1. -/
def serverA0 : ServerV2 := { rooms := [("A", roomA0)] }

/-- Session 1, a member of room "A": the scenario for C1. -/
def clientOne : ClientV2 := { conn := 1, nickName := "n1", room := some "A" }

/-- Session 2, a member of room "A": the scenario for C1. -/
def clientTwo : ClientV2 := { conn := 2, nickName := "n2", room := some "A" }

/-- C1: in chatv2, a `Join` of room "B" issued by a member of room "A"
does not remove the session from "A"'s membership and broadcasts no
"left" notice to "A"; a subsequent SendMessage to "A" still reaches
the session (contradicting the claim's required behaviour), evaluated
on a concrete two-member state. -/
theorem C1_join_keeps_old_membership :
    lookupA (ServerV2.join serverA0 clientOne ["/join", "B"]).1.rooms "A" = some roomA0 ∧
    Ev.send 1 "n2: hi" ∈
      (ServerV2.message (ServerV2.join serverA0 clientOne ["/join", "B"]).1 clientTwo
        ["/msg", "A", "hi"]).2 ∧
    Ev.send 1 "n2: yo" ∈
      (ServerV2.message (ServerV2.join serverA0 clientOne ["/join", "B"]).1 clientTwo
        ["/msg", "B", "yo"]).2 ∧
    Ev.send 2 "n1 left the room" ∉ (ServerV2.join serverA0 clientOne ["/join", "B"]).2.2 := by
  decide

/-- C4: in the v1 chat package, two well-formed dequeued commands
crash the Run loop: a bare "/name" panics with index out of range in
`Server.NickName`, and "/msg hello" from a session that has joined no
room writes the error reply and then dereferences the nil room
pointer in `Server.Message`. -/
theorem C4_processor_loop_panics :
    (ServerV1.runCommand { rooms := [] } { conn := 7, nickName := "Anonymous", room := none }
        .cmdNickname ["/name"]).2.2.2 = some GoPanic.indexOutOfRange ∧
    (ServerV1.runCommand { rooms := [] } { conn := 7, nickName := "Anonymous", room := none }
        .cmdMsg ["/msg", "hello"]).2.2.2 = some GoPanic.nilPointerDereference ∧
    (ServerV1.runCommand { rooms := [] } { conn := 7, nickName := "Anonymous", room := none }
        .cmdMsg ["/msg", "hello"]).2.2.1
      = [Ev.send 7 (clientErrorLine "you must join the room first")] := by
  decide

/-- C9 counterexample: chatv2's `Server.Quit` on a session in no room
closes the transport without writing any farewell line to the issuer,
refuting the claim that a farewell message is sent in every case. -/
theorem C9_no_farewell_counterexample :
    (ServerV2.quit { rooms := [] } { conn := 1, nickName := "n1", room := none }).2.2
      = [Ev.close 1] ∧
    Ev.send 1 "sad to see you go :(" ∉
      (ServerV2.quit { rooms := [] } { conn := 1, nickName := "n1", room := none }).2.2 := by
  decide

/-- C2 counterexample: chatv2's `broadcastMessage` iterates over all
of the room's clients with no sender exclusion, so the issuer of a
SendMessage receives its own message back: client 2 ("nick2") sends
"hello" to "general" and the resulting events include a send to
client 2 itself. -/
theorem C2_sender_not_excluded_counterexample :
    Ev.send 2 "nick2: hello" ∈
      (ServerV2.message
        { rooms := [("general",
            { name := "general", clients := [1, 2], messages := NewCircularBuffer 5 })] }
        { conn := 2, nickName := "nick2", room := some "general" }
        ["/msg", "general", "hello"]).2 := by
  decide

/-- C2 (amended): in the v1 chat package, `Room.Broadcast` delivers to
exactly the members other than the sender (every event targets a
non-sender, and each non-sender member receives the line); in chatv2,
`broadcastMessage` delivers the line to every current member with no
exclusion, so the issuer of a SendMessage receives its own message
back. -/
theorem C2_broadcast_delivery :
    (∀ (r : RoomV1) (sender : Nat) (msg : String) (x : Nat), x ∈ r.members →
      (Ev.send x (clientMessageLine msg) ∈ r.broadcast sender msg ↔ x ≠ sender)) ∧
    (∀ (r : RoomV1) (sender : Nat) (msg : String) (ev : Ev), ev ∈ r.broadcast sender msg →
      ∃ a, a ≠ sender ∧ a ∈ r.members ∧ ev = Ev.send a (clientMessageLine msg)) ∧
    (∀ (r : RoomV2) (msg : String) (x : Nat), x ∈ r.clients →
      Ev.send x msg ∈ broadcastMessage r msg) := by
  refine ⟨?_, ?_, ?_⟩
  · intro r sender msg x hx
    constructor
    · intro hmem
      rw [RoomV1.broadcast, List.mem_map] at hmem
      obtain ⟨a, ha, heq⟩ := hmem
      rw [List.mem_filter] at ha
      have hax : a = x := by
        have := heq
        simp only [Ev.send.injEq] at this
        exact this.1
      subst hax
      simpa using ha.2
    · intro hne
      rw [RoomV1.broadcast, List.mem_map]
      exact ⟨x, List.mem_filter.mpr ⟨hx, by simpa⟩, rfl⟩
  · intro r sender msg ev hmem
    rw [RoomV1.broadcast, List.mem_map] at hmem
    obtain ⟨a, ha, heq⟩ := hmem
    rw [List.mem_filter] at ha
    exact ⟨a, by simpa using ha.2, ha.1, heq.symm⟩
  · intro r msg x hx
    rw [broadcastMessage, List.mem_map]
    exact ⟨x, hx, rfl⟩

/-- Witness for C2 on concrete two-member rooms. -/
theorem C2_broadcast_delivery_witness :
    (1 ∈ ({ name := "g", members := [1, 2] } : RoomV1).members ∧
      (Ev.send 1 (clientMessageLine "hi") ∈
        RoomV1.broadcast { name := "g", members := [1, 2] } 2 "hi" ↔ 1 ≠ 2)) ∧
    (Ev.send 1 (clientMessageLine "hi") ∈
        RoomV1.broadcast { name := "g", members := [1, 2] } 2 "hi" →
      ∃ a, a ≠ 2 ∧ a ∈ ({ name := "g", members := [1, 2] } : RoomV1).members ∧
        Ev.send 1 (clientMessageLine "hi") = Ev.send a (clientMessageLine "hi")) ∧
    (2 ∈ ({ name := "g", clients := [1, 2], messages := NewCircularBuffer 5 } : RoomV2).clients ∧
      Ev.send 2 "hello" ∈
        broadcastMessage
          { name := "g", clients := [1, 2], messages := NewCircularBuffer 5 } "hello") :=
  ⟨⟨by decide, C2_broadcast_delivery.1 { name := "g", members := [1, 2] } 2 "hi" 1 (by decide)⟩,
   fun h => C2_broadcast_delivery.2.1 { name := "g", members := [1, 2] } 2 "hi" _ h,
   ⟨by decide,
    C2_broadcast_delivery.2.2
      { name := "g", clients := [1, 2], messages := NewCircularBuffer 5 } "hello" 2 (by decide)⟩⟩

theorem lookupA_storeA_self {α : Type} (rs : List (String × α)) (n : String) (r : α) :
    lookupA (storeA rs n r) n = some r := by
  induction rs with
  | nil => simp [storeA, lookupA]
  | cons p t ih =>
    obtain ⟨k, v⟩ := p
    by_cases hk : k = n
    · subst hk
      simp [storeA, lookupA]
    · simp [storeA, lookupA, hk, ih]

/-- C6: chatv2's `Server.NickName` implements the claim — with no
argument beyond the command name the issuer alone gets a usage error
and the nickname, session and server are unchanged; otherwise the
nickname is set to the argument and a confirmation goes to the issuer
only.  But the v1 chat package's `Server.NickName` panics (index out
of range) on the same missing-argument command instead of replying
with a usage error. -/
theorem C6_setNickname :
    (∀ (s : ServerV2) (c : ClientV2) (args : List String), args.length < 2 →
      ServerV2.nickName s c args
        = (s, c, [Ev.send c.conn (errorLine "nickname is required. usage: /name NEW_NICKNAME")])) ∧
    (∀ (s : ServerV2) (c : ClientV2) (args : List String), 2 ≤ args.length →
      ServerV2.nickName s c args
        = (s, { c with nickName := args.getD 1 "" },
            [Ev.send c.conn ("Nickname changed to: " ++ args.getD 1 "")])) ∧
    (ServerV1.nickName { conn := 7, nickName := "Anonymous", room := none } ["/name"]).2.2
      = some GoPanic.indexOutOfRange := by
  refine ⟨?_, ?_, by decide⟩
  · intro s c args hlen
    rw [ServerV2.nickName, if_pos hlen]
  · intro s c args hlen
    rw [ServerV2.nickName, if_neg (by omega)]

/-- Witness for C6 on a concrete session. -/
theorem C6_setNickname_witness :
    ((["/name"] : List String).length < 2 ∧
      ServerV2.nickName { rooms := [] } { conn := 1, nickName := "Anonymous", room := none }
          ["/name"]
        = ({ rooms := [] }, { conn := 1, nickName := "Anonymous", room := none },
            [Ev.send 1 (errorLine "nickname is required. usage: /name NEW_NICKNAME")])) ∧
    (2 ≤ (["/name", "bob"] : List String).length ∧
      ServerV2.nickName { rooms := [] } { conn := 1, nickName := "Anonymous", room := none }
          ["/name", "bob"]
        = ({ rooms := [] }, { conn := 1, nickName := "bob", room := none },
            [Ev.send 1 ("Nickname changed to: " ++ "bob")])) :=
  ⟨⟨by decide, C6_setNickname.1 _ _ _ (by decide)⟩,
   ⟨by decide, C6_setNickname.2.1 _ _ _ (by decide)⟩⟩

/-- Two-member room "general" with an empty history buffer. -/
def roomG0 : RoomV2 :=
  { name := "general", clients := [1, 2], messages := NewCircularBuffer 5 }

/-- Registry holding only room "general". -/
def serverG0 : ServerV2 := { rooms := [("general", roomG0)] }

/-- Session 1 with the default nickname, member of "general". -/
def clientAnon : ClientV2 := { conn := 1, nickName := "Anonymous", room := some "general" }

/-- C7 counterexample: chatv2's `Server.Message` only checks
`len(args) < 2`, so "/msg general" carrying a room name but no message
text is not rejected: no usage error is sent, "Anonymous: " (with
empty text) is appended to the room history, and it is broadcast. -/
theorem C7_msg_without_text_counterexample :
    (ServerV2.message serverG0 clientAnon ["/msg", "general"]).2
      = [Ev.send 1 "Anonymous: ", Ev.send 2 "Anonymous: "] ∧
    Ev.send 1 (errorLine "message is required. usage: /msg ROOM MESSAGE") ∉
      (ServerV2.message serverG0 clientAnon ["/msg", "general"]).2 ∧
    ServerV2.roomHistory (ServerV2.message serverG0 clientAnon ["/msg", "general"]).1 "general"
      = ["Anonymous: "] := by
  decide

/-- C7 (amended): only the room name is required by chatv2's
`Server.Message`: argument lists shorter than 2 get the usage error
with no state change, while any argument list with a room name that
resolves in the registry — including one with no message-text tokens,
whose text is then empty — is appended to the history and broadcast. -/
theorem C7_message_usage_check :
    (∀ (s : ServerV2) (c : ClientV2) (args : List String), args.length < 2 →
      ServerV2.message s c args
        = (s, [Ev.send c.conn (errorLine "message is required. usage: /msg ROOM MESSAGE")])) ∧
    (∀ (s : ServerV2) (c : ClientV2) (args : List String) (room : RoomV2),
      2 ≤ args.length → lookupA s.rooms (args.getD 1 "") = some room →
      ServerV2.message s c args
        = ({ rooms := storeA s.rooms (args.getD 1 "")
              { room with messages := room.messages.add (c.nickName ++ ": " ++ String.intercalate " " (args.drop 2)) } },
           broadcastMessage
             { room with messages := room.messages.add (c.nickName ++ ": " ++ String.intercalate " " (args.drop 2)) }
             (c.nickName ++ ": " ++ String.intercalate " " (args.drop 2)))) := by
  constructor
  · intro s c args hlen
    rw [ServerV2.message, if_pos hlen]
  · intro s c args room hlen hlook
    rw [ServerV2.message, if_neg (by omega)]
    simp only [hlook]

/-- Witness for C7: the usage-error branch on "/msg" and the
no-text-accepted branch on "/msg general". -/
theorem C7_message_usage_check_witness :
    ((["/msg"] : List String).length < 2 ∧
      ServerV2.message serverG0 clientAnon ["/msg"]
        = (serverG0, [Ev.send 1 (errorLine "message is required. usage: /msg ROOM MESSAGE")])) ∧
    (2 ≤ (["/msg", "general"] : List String).length ∧
      lookupA serverG0.rooms ((["/msg", "general"] : List String).getD 1 "") = some roomG0 ∧
      ServerV2.message serverG0 clientAnon ["/msg", "general"]
        = ({ rooms := storeA serverG0.rooms "general"
              { roomG0 with messages := roomG0.messages.add "Anonymous: " } },
           broadcastMessage { roomG0 with messages := roomG0.messages.add "Anonymous: " }
             "Anonymous: ")) :=
  ⟨⟨by decide, C7_message_usage_check.1 serverG0 clientAnon ["/msg"] (by decide)⟩,
   ⟨by decide, by decide,
    C7_message_usage_check.2 serverG0 clientAnon ["/msg", "general"] roomG0
      (by decide) (by decide)⟩⟩

/-- C8: a SendMessage naming a room absent from the registry replies
"room not found" to the issuer only and leaves the server state
(registry, memberships, histories) unchanged; no broadcast occurs. -/
theorem C8_message_room_not_found :
    ∀ (s : ServerV2) (c : ClientV2) (args : List String),
      2 ≤ args.length → lookupA s.rooms (args.getD 1 "") = none →
      ServerV2.message s c args = (s, [Ev.send c.conn (errorLine "room not found")]) := by
  intro s c args hlen hlook
  rw [ServerV2.message, if_neg (by omega)]
  simp only [hlook]

/-- Witness for C8: "/msg nope hi" against a registry holding only
"general". -/
theorem C8_message_room_not_found_witness :
    2 ≤ (["/msg", "nope", "hi"] : List String).length ∧
    lookupA serverG0.rooms ((["/msg", "nope", "hi"] : List String).getD 1 "") = none ∧
    ServerV2.message serverG0 clientAnon ["/msg", "nope", "hi"]
      = (serverG0, [Ev.send 1 (errorLine "room not found")]) :=
  ⟨by decide, by decide,
   C8_message_room_not_found serverG0 clientAnon ["/msg", "nope", "hi"] (by decide) (by decide)⟩

/-- Room "general" with one member and two history messages. -/
def roomH0 : RoomV2 :=
  { name := "general", clients := [2],
    messages := (NewCircularBuffer 5).addAll ["a: 1", "b: 2"] }

/-- Registry holding only `roomH0`. -/
def serverH0 : ServerV2 := { rooms := [("general", roomH0)] }

/-- A session that has joined no room yet. -/
def clientJoiner : ClientV2 := { conn := 3, nickName := "n3", room := none }

/-- C5: a `Join` carrying a room name replays exactly the room's
current history to the joining session — one send event per stored
message, in the buffer's chronological order — and all replay events
strictly precede the "joined" notice broadcast in the emitted event
sequence (later commands only append events after these). -/
theorem C5_join_replays_history :
    ∀ (s : ServerV2) (c : ClientV2) (args : List String), 2 ≤ args.length →
      (ServerV2.join s c args).2.2
        = (s.roomHistory (args.getD 1 "")).map (fun m => Ev.send c.conn m)
          ++ (match lookupA (ServerV2.join s c args).1.rooms (args.getD 1 "") with
              | some r => broadcastMessage r (c.nickName ++ " joined the room")
              | none => []) := by
  intro s c args hlen
  rw [ServerV2.join, if_neg (by omega)]
  cases hlook : lookupA s.rooms (args.getD 1 "") with
  | some r =>
    simp only [hlook, ServerV2.roomHistory, lookupA_storeA_self]
  | none =>
    simp only [hlook, ServerV2.roomHistory, lookupA_storeA_self]
    rfl

/-- Witness for C5: a join to "general", which holds two history
messages, from a fresh session. -/
theorem C5_join_replays_history_witness :
    2 ≤ (["/join", "general"] : List String).length ∧
    (ServerV2.join serverH0 clientJoiner ["/join", "general"]).2.2
      = (serverH0.roomHistory ((["/join", "general"] : List String).getD 1 "")).map
          (fun m => Ev.send clientJoiner.conn m)
        ++ (match lookupA (ServerV2.join serverH0 clientJoiner ["/join", "general"]).1.rooms
              ((["/join", "general"] : List String).getD 1 "") with
            | some r => broadcastMessage r (clientJoiner.nickName ++ " joined the room")
            | none => []) :=
  ⟨by decide, C5_join_replays_history serverH0 clientJoiner ["/join", "general"] (by decide)⟩

/-- C9 (amended): `Quit` removes the membership and broadcasts a
"left" notice when the session is in a room, then closes the
transport; the farewell reply exists only in the v1 chat package
("sad to see you go :("), while chatv2 closes the connection with no
farewell message. -/
theorem C9_quit_behaviour :
    (∀ (s : ServerV2) (c : ClientV2) (rn : String) (room : RoomV2),
      c.room = some rn → lookupA s.rooms rn = some room →
      ServerV2.quit s c
        = ({ rooms := storeA s.rooms rn { room with clients := room.clients.filter (fun x => x ≠ c.conn) } },
           { c with room := none },
           broadcastMessage { room with clients := room.clients.filter (fun x => x ≠ c.conn) } (c.nickName ++ " left the room")
             ++ [Ev.close c.conn])) ∧
    (∀ (s : ServerV2) (c : ClientV2), c.room = none →
      ServerV2.quit s c = (s, c, [Ev.close c.conn])) ∧
    (∀ (s : ServerV1) (c : ClientV1) (rn : String) (room : RoomV1),
      c.room = some rn → lookupA s.rooms rn = some room →
      ServerV1.quit s c
        = ({ rooms := storeA s.rooms rn { room with members := room.members.filter (fun a => a ≠ c.conn) } },
           c,
           RoomV1.broadcast { room with members := room.members.filter (fun a => a ≠ c.conn) } c.conn (c.nickName ++ " has left the chat")
             ++ [Ev.send c.conn (clientMessageLine "sad to see you go :("), Ev.close c.conn])) ∧
    (∀ (s : ServerV1) (c : ClientV1), c.room = none →
      ServerV1.quit s c
        = (s, c, [Ev.send c.conn (clientMessageLine "sad to see you go :("), Ev.close c.conn])) := by
  refine ⟨?_, ?_, ?_, ?_⟩
  · intro s c rn room hroom hlook
    rw [ServerV2.quit]
    simp only [hroom, hlook]
  · intro s c hroom
    rw [ServerV2.quit]
    simp only [hroom]
  · intro s c rn room hroom hlook
    rw [ServerV1.quit, ServerV1.quitCurrentRoom]
    simp only [hroom, hlook]
  · intro s c hroom
    rw [ServerV1.quit, ServerV1.quitCurrentRoom]
    simp only [hroom]
    rfl

/-- v1 room "general" with two members. -/
def roomV1g : RoomV1 := { name := "general", members := [1, 2] }

/-- v1 registry holding only `roomV1g`. -/
def serverV1g : ServerV1 := { rooms := [("general", roomV1g)] }

/-- v1 session 1, a member of "general". -/
def clientV1a : ClientV1 := { conn := 1, nickName := "n1", room := some "general" }

/-- v1 session that has joined no room. -/
def clientV1free : ClientV1 := { conn := 9, nickName := "n9", room := none }

/-- Witness for C9 on concrete sessions, one per Quit branch of each
variant. -/
theorem C9_quit_behaviour_witness :
    (clientAnon.room = some "general" ∧ lookupA serverG0.rooms "general" = some roomG0 ∧
      ServerV2.quit serverG0 clientAnon
        = ({ rooms := storeA serverG0.rooms "general" { roomG0 with clients := roomG0.clients.filter (fun x => x ≠ clientAnon.conn) } },
           { clientAnon with room := none },
           broadcastMessage { roomG0 with clients := roomG0.clients.filter (fun x => x ≠ clientAnon.conn) } (clientAnon.nickName ++ " left the room")
             ++ [Ev.close clientAnon.conn])) ∧
    (clientJoiner.room = none ∧
      ServerV2.quit serverG0 clientJoiner = (serverG0, clientJoiner, [Ev.close clientJoiner.conn])) ∧
    (clientV1a.room = some "general" ∧ lookupA serverV1g.rooms "general" = some roomV1g ∧
      ServerV1.quit serverV1g clientV1a
        = ({ rooms := storeA serverV1g.rooms "general" { roomV1g with members := roomV1g.members.filter (fun a => a ≠ clientV1a.conn) } },
           clientV1a,
           RoomV1.broadcast { roomV1g with members := roomV1g.members.filter (fun a => a ≠ clientV1a.conn) } clientV1a.conn (clientV1a.nickName ++ " has left the chat")
             ++ [Ev.send clientV1a.conn (clientMessageLine "sad to see you go :("), Ev.close clientV1a.conn])) ∧
    (clientV1free.room = none ∧
      ServerV1.quit serverV1g clientV1free
        = (serverV1g, clientV1free,
           [Ev.send clientV1free.conn (clientMessageLine "sad to see you go :("), Ev.close clientV1free.conn])) :=
  ⟨⟨by decide, by decide, C9_quit_behaviour.1 serverG0 clientAnon "general" roomG0 (by decide) (by decide)⟩,
   ⟨by decide, C9_quit_behaviour.2.1 serverG0 clientJoiner (by decide)⟩,
   ⟨by decide, by decide, C9_quit_behaviour.2.2.1 serverV1g clientV1a "general" roomV1g (by decide) (by decide)⟩,
   ⟨by decide, C9_quit_behaviour.2.2.2 serverV1g clientV1free (by decide)⟩⟩
